import Mathlib

set_option maxHeartbeats 1000000

/-!
Verification of the Top_Chart_Scraper repository against its specification.

The repository has two pipeline variants:
  * `src/TopChart_Data.py`  (namespace `TopChartData` below) — RSS genre feed,
    country-wide top-free feed fallback, iTunes lookup enrichment, CSV output.
  * `src/appstore.py`       (namespace `Appstore` below) — HTML web-charts scrape,
    iTunes lookup enrichment, CSV output.

The network is modelled by a list of `Outcome`s per requested URL: each HTTP
attempt made by `robust_get` consumes the next outcome of the list (a response
with a status code and a parsed body, or a transport-level exception).  Sleeps
(`time.sleep`) and attempt counts are recorded in a `FetchTrace`.  Delays are
modelled as rationals.  Response bodies are modelled post-JSON/HTML-parse as a
small inductive `Body`; a payload of the wrong shape (or a parse failure, i.e.
a Python exception caught by the `try/except` blocks) is `Body.malformed`.
-/

namespace TopChartScraper

/-- Chart entry as handled by `TopChart_Data.py`: a dict with optional
`"id"` and `"name"` keys (`e.get("id")`, `e.get("name")`). -/
structure ChartEntry where
  id : Option String
  name : Option String
deriving DecidableEq

/-- Entry of the country-wide RSS feed (`feed.entry` items of
`https://itunes.apple.com/{country}/rss/topfreeapplications/...`):
`e["id"]["attributes"]["im:id"]` and `e["im:name"]["label"]`, each possibly missing. -/
structure RssEntry where
  im_id : Option String
  im_name : Option String
deriving DecidableEq

/-- Result record of the iTunes lookup endpooint (`results[i]`): a JSON dict,
modelled by the ten keys the pipeline reads via `.get` (each possibly missing;
values modelled as strings) plus a flag recording whether the dict carries any
further, unread keys — needed to decide Python truthiness of the dict. -/
structure AppDetail where
  trackName : Option String
  sellerName : Option String
  trackViewUrl : Option String
  price : Option String
  averageUserRating : Option String
  userRatingCount : Option String
  primaryGenreName : Option String
  description : Option String
  releaseDate : Option String
  currentVersionReleaseDate : Option String
  has_other_keys : Bool
deriving DecidableEq

/-- Python truthiness of the looked-up dict: a dict is truthy iff it is
non-empty, i.e. at least one of the read keys is present or some unread key
exists.  (`None` and `{}` are falsy; any other dict is truthy.) -/
def AppDetail.truthy (d : AppDetail) : Bool :=
  d.trackName.isSome || d.sellerName.isSome || d.trackViewUrl.isSome || d.price.isSome ||
  d.averageUserRating.isSome || d.userRatingCount.isSome || d.primaryGenreName.isSome ||
  d.description.isSome || d.releaseDate.isSome || d.currentVersionReleaseDate.isSome ||
  d.has_other_keys

/-- Parsed body of an HTTP response, by endpoint shape.  `malformed` stands for
a body that fails to parse or lacks the expected structure (the `try/except`
and `.get(..., default)` paths of the source). -/
inductive Body where
  | genreFeedResults (results : List ChartEntry)
  | rssEntries (entries : List RssEntry)
  | lookupResults (results : List AppDetail)
  | htmlPage (hrefs : List String)
  | malformed
deriving DecidableEq

/-- HTTP response: status code plus parsed body. -/
structure Response where
  status : Nat
  body : Body
deriving DecidableEq

/-- Outcome of one HTTP attempt: a response, or a `requests.RequestException`
(timeout / connection failure). -/
inductive Outcome where
  | response (r : Response)
  | transportError
deriving DecidableEq

/-- Trace of one `robust_get` call: its return value, the number of attempts
performed, and the sequence of back-off sleeps executed (in seconds). -/
structure FetchTrace where
  result : Option Response
  attempts : Nat
  sleeps : List ℚ
deriving DecidableEq

/-- `MAX_RETRIES = 4` (identical in both source files). -/
def MAX_RETRIES : Nat := 4

/-- `BACKOFF_FACTOR = 1.8` (identical in both source files). -/
def BACKOFF_FACTOR : ℚ := 1.8

/-- The retry loop shared by both files' `robust_get`, parameterised by the
tuple of retryable status codes (the single point where the two files differ:
`(429, 503)` in `TopChart_Data.py`, `(429, 503, 502, 504)` in `appstore.py`).
Mirrors the loop `for attempt in range(1, max_retries + 1)`:
a 2xx response is returned at once; a retryable status falls through to
`time.sleep(delay); delay *= BACKOFF_FACTOR`; any other status is returned at
once (`return r`); a transport exception falls through to the sleep.  Each
attempt consumes the next outcome of the list; an exhausted outcome list means
no further outcome is observable and the call returns `None`. -/
def robust_get_go (retryable : List Nat) : List Outcome → Nat → ℚ → FetchTrace
  | _, 0, _ => ⟨none, 0, []⟩
  | [], _ + 1, _ => ⟨none, 0, []⟩
  | .response r :: rest, fuel + 1, delay =>
      if 200 ≤ r.status ∧ r.status < 300 then ⟨some r, 1, []⟩
      else if r.status ∈ retryable then
        let t := robust_get_go retryable rest fuel (delay * BACKOFF_FACTOR)
        ⟨t.result, t.attempts + 1, delay :: t.sleeps⟩
      else ⟨some r, 1, []⟩
  | .transportError :: rest, fuel + 1, delay =>
      let t := robust_get_go retryable rest fuel (delay * BACKOFF_FACTOR)
      ⟨t.result, t.attempts + 1, delay :: t.sleeps⟩

/-- Decides whether one outcome takes the retry path (sleep + next attempt)
of the loop: a transport exception, or a non-2xx response whose status is in
the retryable tuple. -/
def outcome_retries (retryable : List Nat) : Outcome → Bool
  | .transportError => true
  | .response r =>
      !(decide (200 ≤ r.status ∧ r.status < 300)) && decide (r.status ∈ retryable)

/-- `GENRE_MAP`, in source (insertion) order — identical in both files.
Python dicts preserve insertion order for iteration. -/
def GENRE_MAP : List (String × Nat) :=
  [("books", 6018), ("business", 6000), ("developer tools", 6026), ("education", 6017),
   ("entertainment", 6016), ("finance", 6015), ("food & drink", 6023), ("graphics & design", 6027),
   ("health & fitness", 6013), ("lifestyle", 6012), ("kids", 36), ("magazines & newspapers", 6021),
   ("medical", 6020), ("music", 6011), ("navigation", 6010), ("news", 6009), ("photo & video", 6008),
   ("productivity", 6007), ("reference", 6006), ("safari extensions", 1460), ("shopping", 6024),
   ("social networking", 6005), ("sports", 6004), ("travel", 6003), ("utilities", 6002), ("weather", 6001)]

/-- Python dict key lookup `GENRE_MAP[k]` guarded by `k in GENRE_MAP`
(keys are pairwise distinct, so association-list lookup agrees). -/
def genre_lookup (k : String) : Option Nat :=
  (GENRE_MAP.find? fun p => p.1 == k).map fun p => p.2

/-- Python substring test `a in b`. -/
def substr (a b : String) : Bool :=
  decide (a.toList <:+: b.toList)

/-- Python `str.lower` (character-wise; ASCII case mapping). -/
def py_lower (s : String) : String :=
  (s.toList.map Char.toLower).asString

/-- Python `str.upper` (character-wise; ASCII case mapping). -/
def py_upper (s : String) : String :=
  (s.toList.map Char.toUpper).asString

/-- Python `str.strip`: drop leading and trailing whitespace. -/
def py_strip (s : String) : String :=
  (((s.toList.dropWhile Char.isWhitespace).reverse.dropWhile Char.isWhitespace).reverse).asString

/-- Scan underlying Python `str.replace`: replace non-overlapping occurrences
of `pat` left to right; `skip` counts characters of a just-matched occurrence
still to be consumed. -/
def py_replace_go (pat rep : List Char) : List Char → Nat → List Char
  | [], _ => []
  | _ :: cs, k + 1 => py_replace_go pat rep cs k
  | c :: cs, 0 =>
      if pat.isPrefixOf (c :: cs) && !pat.isEmpty then
        rep ++ py_replace_go pat rep cs (pat.length - 1)
      else c :: py_replace_go pat rep cs 0

/-- Python `s.replace(pat, rep)`. -/
def py_replace (s pat rep : String) : String :=
  (py_replace_go pat.toList rep.toList s.toList 0).asString

/-- Python `str(x)` applied to `e.get(...)`: `str(None) = "None"`. -/
def str_of_opt : Option String → String
  | some s => s
  | none => "None"

end TopChartScraper

namespace TopChartScraper.TopChartData

open TopChartScraper

/-- `COUNTRY = "ar"` in `TopChart_Data.py`. -/
def COUNTRY : String := "ar"

/-- `robust_get` of `TopChart_Data.py` (lines 35–54), instrumented: retryable
statuses `(429, 503)`, initial delay `1.0`. -/
def robust_get_trace (outcomes : List Outcome) (max_retries : Nat) : FetchTrace :=
  robust_get_go [429, 503] outcomes max_retries 1

/-- Return value of `robust_get` of `TopChart_Data.py`:
`Optional[requests.Response]`. -/
def robust_get (outcomes : List Outcome) (max_retries : Nat) : Option Response :=
  (robust_get_trace outcomes max_retries).result

/-- `find_genre_id` of `TopChart_Data.py` (lines 83–93): exact key lookup on
the trimmed lower-cased input; then key lookup of the input with `"&"`
replaced by `"and"`; then the first table entry whose name is a substring of
the input or of which the input is a substring. -/
def find_genre_id (category : String) : Option Nat :=
  let k := py_lower (py_strip category)
  match genre_lookup k with
  | some gid => some gid
  | none =>
    let k2 := py_replace k "&" "and"
    match genre_lookup k2 with
    | some gid => some gid
    | none =>
      (GENRE_MAP.find? fun p => substr p.1 k || substr k p.1).map fun p => p.2

/-- `fetch_top_apps_by_genre` of `TopChart_Data.py` (lines 95–103), with the
outcomes the network yields for the genre-feed URL passed explicitly:
`if not r or r.status_code != 200: return []`, then
`r.json().get("feed", {}).get("results", [])` with `except: return []`. -/
def fetch_top_apps_by_genre (net : List Outcome) : List ChartEntry :=
  match robust_get net MAX_RETRIES with
  | none => []
  | some r =>
    if r.status = 200 then
      match r.body with
      | .genreFeedResults results => results
      | _ => []
    else []

/-- `fetch_country_topfree` of `TopChart_Data.py` (lines 105–120): parses the
RSS `feed.entry` list, keeping `{"id": str(app_id), "name": app_name}` for each
entry whose `im:id` is truthy (present and non-empty). -/
def fetch_country_topfree (net : List Outcome) : List ChartEntry :=
  match robust_get net MAX_RETRIES with
  | none => []
  | some r =>
    if r.status = 200 then
      match r.body with
      | .rssEntries entries =>
        entries.filterMap fun e =>
          match e.im_id with
          | some s => if s = "" then none else some ⟨some s, e.im_name⟩
          | none => none
      | _ => []
    else []

/-- `lookup_app_details` of `TopChart_Data.py` (lines 122–131):
`results[0] if results else None`, `None` on non-200, fetch failure, or parse
failure. -/
def lookup_app_details (net : List Outcome) : Option AppDetail :=
  match robust_get net MAX_RETRIES with
  | none => none
  | some r =>
    if r.status = 200 then
      match r.body with
      | .lookupResults results => results.head?
      | _ => none
    else none

/-- Network environment of one `TopChart_Data.py` run: the outcome list served
for the genre-feed URL of each genre id, for the country-top-free URL, and for
the lookup URL of each app id. -/
structure Env where
  genreFeed : Nat → List Outcome
  countryTopFree : List Outcome
  lookup : String → List Outcome

/-- Output row of `TopChart_Data.py` (the dict literal at lines 179–195). -/
structure Row where
  country : String
  category : String
  genre_id : Option Nat
  rank : Nat
  app_id : String
  app_name : Option String
  developer : Option String
  url : Option String
  price : Option String
  averageUserRating : Option String
  userRatingCount : Option String
  primaryGenreName : Option String
  description : Option String
  launch_date : Option String
  update_date : Option String
deriving DecidableEq

/-- The row dict literal of `TopChart_Data.py` (lines 179–195): each detail
field is `details.get(...) if details else <fallback>`, where `if details` is
Python *truthiness* of the dict (false for `None` and for an empty dict `{}`),
and the fallback is the entry's own `name` for `app_name` and `None` for every
other detail field. -/
def make_row (cat : String) (gid : Option Nat) (idx : Nat) (e : ChartEntry)
    (details : Option AppDetail) : Row where
  country := COUNTRY
  category := cat
  genre_id := gid
  rank := idx
  app_id := str_of_opt e.id
  app_name := match details with
    | some d => if d.truthy then d.trackName else e.name
    | none => e.name
  developer := match details with
    | some d => if d.truthy then d.sellerName else none
    | none => none
  url := match details with
    | some d => if d.truthy then d.trackViewUrl else none
    | none => none
  price := match details with
    | some d => if d.truthy then d.price else none
    | none => none
  averageUserRating := match details with
    | some d => if d.truthy then d.averageUserRating else none
    | none => none
  userRatingCount := match details with
    | some d => if d.truthy then d.userRatingCount else none
    | none => none
  primaryGenreName := match details with
    | some d => if d.truthy then d.primaryGenreName else none
    | none => none
  description := match details with
    | some d => if d.truthy then d.description else none
    | none => none
  launch_date := match details with
    | some d => if d.truthy then d.releaseDate else none
    | none => none
  update_date := match details with
    | some d => if d.truthy then d.currentVersionReleaseDate else none
    | none => none

/-- The enrichment loop `for idx, e in enumerate(entries, start=1)` of
`TopChart_Data.py` (lines 171–197), started at index `idx`. -/
def assemble_rows (env : Env) (cat : String) (gid : Option Nat) :
    Nat → List ChartEntry → List Row
  | _, [] => []
  | idx, e :: rest =>
      make_row cat gid idx e (lookup_app_details (env.lookup (str_of_opt e.id))) ::
        assemble_rows env cat gid (idx + 1) rest

/-- The source-selection lines of `run` (165–167):
`entries = fetch_top_apps_by_genre(COUNTRY, gid, LIMIT) if gid else []` and
`if not entries: entries = fetch_country_topfree(COUNTRY, LIMIT)`.
The boolean records whether the country-top-free source was called. -/
def select_entries (env : Env) (gid : Option Nat) : List ChartEntry × Bool :=
  let entries := match gid with
    | some g => fetch_top_apps_by_genre (env.genreFeed g)
    | none => []
  if entries.isEmpty then (fetch_country_topfree env.countryTopFree, true)
  else (entries, false)

/-- Filename sanitisation of `save_rows_csv` (line 134):
`"".join(c if c.isalnum() or c in " _-" else "_" for c in category)` followed by
`.replace(" ", "_")` (a single-character pattern, hence character-wise). -/
def safe_name (category : String) : String :=
  (((category.toList.map fun c =>
      if c.isAlphanum || c == ' ' || c == '_' || c == '-' then c else '_').map
    fun c => if c == ' ' then '_' else c)).asString

/-- `OUTPUT_NAME_TPL.format(cat=safe)` with `OUTPUT_NAME_TPL = "topchart_a_{cat}.csv"`
(lines 19, 133–135). -/
def save_filename (category : String) : String :=
  "topchart_a_" ++ safe_name category ++ ".csv"

/-- The artifact `save_rows_csv` writes: one CSV file (name plus its data
rows; the header row is always written). -/
structure Artifact where
  filename : String
  rows : List Row
deriving DecidableEq

/-- One iteration of the category loop of `run` (lines 161–200).
`save_rows_csv(rows, cat)` is called unconditionally, so every category yields
an artifact (possibly with zero data rows). -/
def run_category (env : Env) (cat : String) : Artifact :=
  let gid := find_genre_id cat
  let entries := (select_entries env gid).1
  ⟨save_filename cat, assemble_rows env cat gid 1 entries⟩

/-- The category loop of `run` (lines 156–202): one artifact per category. -/
def run (env : Env) (categories : List String) : List Artifact :=
  categories.map (run_category env)

end TopChartScraper.TopChartData

namespace TopChartScraper.Appstore

open TopChartScraper

/-- `COUNTRY = "bt"` in `appstore.py`. -/
def COUNTRY : String := "bt"

/-- `LIMIT = 50` in `appstore.py`. -/
def LIMIT : Nat := 50

/-- `robust_get` of `appstore.py` (lines 75–92), instrumented: retryable
statuses `(429, 503, 502, 504)`, initial delay `1.0`. -/
def robust_get_trace (outcomes : List Outcome) (max_retries : Nat) : FetchTrace :=
  robust_get_go [429, 503, 502, 504] outcomes max_retries 1

/-- Return value of `robust_get` of `appstore.py`. -/
def robust_get (outcomes : List Outcome) (max_retries : Nat) : Option Response :=
  (robust_get_trace outcomes max_retries).result

/-- `get_country_name` of `appstore.py` (lines 61–73), with `pycountry`
unavailable (the import is wrapped in `try/except`): upper-case the code and
look it up in the `FALLBACK` dict, defaulting to the code itself. -/
def get_country_name (code : String) : String :=
  let c := py_upper code
  if c = "US" then "United States"
  else if c = "GB" then "United Kingdom"
  else if c = "PK" then "Pakistan"
  else c

/-- The inline genre resolution of `run` in `appstore.py` (lines 225–236):
exact key lookup, then the `"&"`→`"and"` rewrite, then the first substring
match in table order — the same algorithm as `find_genre_id`. -/
def resolve_gid (cat : String) : Option Nat :=
  let k := py_lower (py_strip cat)
  match genre_lookup k with
  | some gid => some gid
  | none =>
    let k2 := py_replace k "&" "and"
    match genre_lookup k2 with
    | some gid => some gid
    | none =>
      (GENRE_MAP.find? fun p => substr p.1 k || substr k p.1).map fun p => p.2

/-- Attempted match of `APPID_RE = re.compile(r"/id(\d+)(?:\?|$|/)")` at the
head of the character list: literal `/id`, then a maximal non-empty digit run,
then `?`, `/`, or end of string.  (Backtracking on `\d+` can never succeed
where the maximal run fails, because any shorter run is followed by a digit.) -/
def match_id_at : List Char → Option String
  | '/' :: 'i' :: 'd' :: rest =>
      let ds := rest.takeWhile Char.isDigit
      if ds.isEmpty then none
      else
        match rest.dropWhile Char.isDigit with
        | [] => some ds.asString
        | c :: _ => if c == '?' || c == '/' then some ds.asString else none
  | _ => none

/-- `re.search`: try `match_id_at` at each position, left to right. -/
def search_app_id : List Char → Option String
  | [] => none
  | c :: rest =>
      match match_id_at (c :: rest) with
      | some s => some s
      | none => search_app_id rest

/-- `APPID_RE.search(a["href"])` with the captured digit group (line 137). -/
def extract_app_id (href : String) : Option String :=
  search_app_id href.toList

/-- The anchor loop of `scrape_charts_page_for_genre` (lines 136–143) over the
hrefs in document order, accumulating `ids`: skip on no regex match, skip
already-seen ids, append otherwise, and break once `len(ids) >= limit`
(checked after the append). -/
def scrape_loop (limit : Nat) : List String → List String → List String
  | [], ids => ids
  | h :: rest, ids =>
      match extract_app_id h with
      | none => scrape_loop limit rest ids
      | some appid =>
          if ids.contains appid then scrape_loop limit rest ids
          else
            let ids2 := ids ++ [appid]
            if limit ≤ ids2.length then ids2 else scrape_loop limit rest ids2

/-- `scrape_charts_page_for_genre` of `appstore.py` (lines 122–147), with the
outcomes served for the charts-page URL passed explicitly; `[]` on fetch
failure, non-200 status, or HTML parse failure. -/
def scrape_charts_page_for_genre (net : List Outcome) (limit : Nat) : List String :=
  match robust_get net MAX_RETRIES with
  | none => []
  | some r =>
    if r.status = 200 then
      match r.body with
      | .htmlPage hrefs => scrape_loop limit hrefs []
      | _ => []
    else []

/-- `lookup_app_details_itunes` of `appstore.py` (lines 152–161). -/
def lookup_app_details_itunes (net : List Outcome) : Option AppDetail :=
  match robust_get net MAX_RETRIES with
  | none => none
  | some r =>
    if r.status = 200 then
      match r.body with
      | .lookupResults results => results.head?
      | _ => none
    else none

/-- Network environment of one `appstore.py` run: the outcome list served for
the charts page of each genre id and for the lookup URL of each app id. -/
structure Env where
  charts : Nat → List Outcome
  lookup : String → List Outcome

/-- Output row of `appstore.py` (dict literal at lines 261–278). -/
structure Row where
  country : String
  country_name : String
  category : String
  genre_id : Nat
  rank : Nat
  app_id : String
  app_name : Option String
  developer : Option String
  url : Option String
  price : Option String
  averageUserRating : Option String
  userRatingCount : Option String
  primaryGenreName : Option String
  description : Option String
  launch_date : Option String
  update_date : Option String
deriving DecidableEq

/-- The row dict literal of `appstore.py` (lines 261–278).  With the shipped
configuration `USE_SCRAPER = False`, `scraper_extra = {}` and
`name = details.get("trackName") if details else None`, so every
`scraper_extra.get(...) or ...` fallback evaluates to `None` when `details`
is absent. -/
def make_row (country country_name cat : String) (gid : Nat) (idx : Nat)
    (app_id : String) (details : Option AppDetail) : Row where
  country := country
  country_name := country_name
  category := cat
  genre_id := gid
  rank := idx
  app_id := app_id
  app_name := match details with | some d => d.trackName | none => none
  developer := match details with | some d => d.sellerName | none => none
  url := match details with | some d => d.trackViewUrl | none => none
  price := match details with | some d => d.price | none => none
  averageUserRating := match details with | some d => d.averageUserRating | none => none
  userRatingCount := match details with | some d => d.userRatingCount | none => none
  primaryGenreName := match details with | some d => d.primaryGenreName | none => none
  description := match details with | some d => d.description | none => none
  launch_date := match details with | some d => d.releaseDate | none => none
  update_date := match details with | some d => d.currentVersionReleaseDate | none => none

/-- The enrichment loop `for idx, app_id in enumerate(app_ids, start=1)` of
`appstore.py` (lines 250–279), started at index `idx`. -/
def assemble_rows (env : Env) (country country_name cat : String) (gid : Nat) :
    Nat → List String → List Row
  | _, [] => []
  | idx, app_id :: rest =>
      make_row country country_name cat gid idx app_id
        (lookup_app_details_itunes (env.lookup app_id)) ::
        assemble_rows env country country_name cat gid (idx + 1) rest

/-- Filename sanitisation of `save_rows_csv` in `appstore.py` (line 194):
as in `TopChart_Data.py` but with a `.strip()` between the join and the
space-to-underscore replacement. -/
def safe_name (category : String) : String :=
  ((py_strip ((category.toList.map fun c =>
      if c.isAlphanum || c == ' ' || c == '_' || c == '-' then c else '_').asString)).toList.map
    fun c => if c == ' ' then '_' else c).asString

/-- `OUTPUT_NAME_TPL.format(country=country_code, cat=safe_cat)` with
`OUTPUT_NAME_TPL = "topchart_cat_{country}_{cat}.csv"` (lines 36, 193–195). -/
def save_filename (country category : String) : String :=
  "topchart_cat_" ++ country ++ "_" ++ safe_name category ++ ".csv"

/-- The artifact `save_rows_csv` writes. -/
structure Artifact where
  filename : String
  rows : List Row
deriving DecidableEq

/-- One iteration of the category loop of `run` in `appstore.py`
(lines 219–282): `continue` (no artifact) when no genre id matches or when the
charts page yields no app ids; otherwise enrich each id and save. -/
def run_category (env : Env) (country : String) (limit : Nat) (cat : String) :
    Option Artifact :=
  match resolve_gid cat with
  | none => none
  | some gid =>
      let app_ids := scrape_charts_page_for_genre (env.charts gid) limit
      if app_ids.isEmpty then none
      else
        some ⟨save_filename country cat,
          assemble_rows env country (get_country_name country) cat gid 1 app_ids⟩

/-- The category loop of `run` in `appstore.py` (lines 213–284): the artifacts
of the categories that were not skipped. -/
def run (env : Env) (country : String) (limit : Nat) (categories : List String) :
    List Artifact :=
  categories.filterMap (run_category env country limit)

end TopChartScraper.Appstore

namespace TopChartScraper

theorem robust_get_go_response (retryable : List Nat) (r : Response) (rest : List Outcome)
    (fuel : Nat) (delay : ℚ) :
    robust_get_go retryable (.response r :: rest) (fuel + 1) delay =
      if 200 ≤ r.status ∧ r.status < 300 then ⟨some r, 1, []⟩
      else if r.status ∈ retryable then
        ⟨(robust_get_go retryable rest fuel (delay * BACKOFF_FACTOR)).result,
         (robust_get_go retryable rest fuel (delay * BACKOFF_FACTOR)).attempts + 1,
         delay :: (robust_get_go retryable rest fuel (delay * BACKOFF_FACTOR)).sleeps⟩
      else ⟨some r, 1, []⟩ := rfl

theorem robust_get_go_transport (retryable : List Nat) (rest : List Outcome)
    (fuel : Nat) (delay : ℚ) :
    robust_get_go retryable (.transportError :: rest) (fuel + 1) delay =
      ⟨(robust_get_go retryable rest fuel (delay * BACKOFF_FACTOR)).result,
       (robust_get_go retryable rest fuel (delay * BACKOFF_FACTOR)).attempts + 1,
       delay :: (robust_get_go retryable rest fuel (delay * BACKOFF_FACTOR)).sleeps⟩ := rfl

theorem robust_get_go_success (retryable : List Nat) (r : Response) (rest : List Outcome)
    (fuel : Nat) (delay : ℚ) (h : 200 ≤ r.status ∧ r.status < 300) :
    robust_get_go retryable (.response r :: rest) (fuel + 1) delay = ⟨some r, 1, []⟩ := by
  rw [robust_get_go_response, if_pos h]

theorem robust_get_go_nonretryable (retryable : List Nat) (r : Response) (rest : List Outcome)
    (fuel : Nat) (delay : ℚ) (h : ¬(200 ≤ r.status ∧ r.status < 300))
    (hm : r.status ∉ retryable) :
    robust_get_go retryable (.response r :: rest) (fuel + 1) delay = ⟨some r, 1, []⟩ := by
  rw [robust_get_go_response, if_neg h, if_neg hm]

theorem geometric_sleeps_cons (delay : ℚ) (m : Nat) :
    delay :: (List.range m).map (fun k => delay * BACKOFF_FACTOR * BACKOFF_FACTOR ^ k) =
      (List.range (m + 1)).map fun k => delay * BACKOFF_FACTOR ^ k := by
  rw [List.range_succ_eq_map, List.map_cons, List.map_map]
  refine congrArg₂ List.cons (by simp) ?_
  refine List.map_congr_left fun k _ => ?_
  simp only [Function.comp_apply, pow_succ]
  ring

theorem robust_get_go_all_retry (retryable : List Nat) (outcomes : List Outcome)
    (h : ∀ o ∈ outcomes, outcome_retries retryable o = true) :
    ∀ (fuel : Nat) (delay : ℚ),
      robust_get_go retryable outcomes fuel delay =
        ⟨none, min outcomes.length fuel,
          (List.range (min outcomes.length fuel)).map fun k => delay * BACKOFF_FACTOR ^ k⟩ := by
  induction outcomes with
  | nil => intro fuel delay; cases fuel <;> simp [robust_get_go]
  | cons o rest ih =>
    intro fuel delay
    have ho := h o (List.mem_cons_self o rest)
    have hrest : ∀ o ∈ rest, outcome_retries retryable o = true :=
      fun o ho => h o (List.mem_cons_of_mem _ ho)
    cases fuel with
    | zero => simp [robust_get_go]
    | succ f =>
      cases o with
      | transportError =>
          rw [robust_get_go_transport, ih hrest f (delay * BACKOFF_FACTOR)]
          simp only [List.length_cons, Nat.succ_min_succ]
          exact congrArg (FetchTrace.mk none _) (geometric_sleeps_cons delay _)
      | response r =>
          simp only [outcome_retries, Bool.and_eq_true, Bool.not_eq_eq_eq_not, Bool.not_true,
            decide_eq_false_iff_not, decide_eq_true_eq] at ho
          rw [robust_get_go_response, if_neg ho.1, if_pos ho.2,
            ih hrest f (delay * BACKOFF_FACTOR)]
          simp only [List.length_cons, Nat.succ_min_succ]
          exact congrArg (FetchTrace.mk none _) (geometric_sleeps_cons delay _)

/-- C1: the claim as stated fails on `TopChart_Data.py`: its `robust_get`
retries only on 429 and 503, so a 502 (or 504) response is returned after
exactly one attempt with no back-off sleep, even though a 200 response was
available on the next attempt.  (In `appstore.py`, by contrast, 502 does take
the retry path — witnessed in the amended theorem.) -/
theorem C1_counterexample :
    TopChartData.robust_get_trace
        [.response ⟨502, .malformed⟩, .response ⟨200, .malformed⟩] MAX_RETRIES =
      ⟨some ⟨502, .malformed⟩, 1, []⟩ ∧
    TopChartData.robust_get_trace
        [.response ⟨504, .malformed⟩, .response ⟨200, .malformed⟩] MAX_RETRIES =
      ⟨some ⟨504, .malformed⟩, 1, []⟩ := ⟨rfl, rfl⟩

/-- C1 (amended): for every HTTP response, each fetcher classifies by status
code — a 2xx status returns success immediately after one attempt; a
retryable status (429 or 503 for `TopChart_Data.py`; 429, 502, 503 or 504 for
`appstore.py`) records the current back-off sleep (initially `1.0`) and
continues with the remaining outcomes under a decremented budget; any other
non-2xx status returns the response immediately after exactly one attempt,
with no sleep, leaving the remaining retry budget unconsumed. -/
theorem C1_amended_status_classification (r : Response) (rest : List Outcome) :
    (200 ≤ r.status ∧ r.status < 300 →
      TopChartData.robust_get_trace (.response r :: rest) MAX_RETRIES = ⟨some r, 1, []⟩ ∧
      Appstore.robust_get_trace (.response r :: rest) MAX_RETRIES = ⟨some r, 1, []⟩) ∧
    (¬(200 ≤ r.status ∧ r.status < 300) → r.status ∈ ([429, 503] : List Nat) →
      TopChartData.robust_get_trace (.response r :: rest) MAX_RETRIES =
        ⟨(robust_get_go [429, 503] rest 3 (1 * BACKOFF_FACTOR)).result,
         (robust_get_go [429, 503] rest 3 (1 * BACKOFF_FACTOR)).attempts + 1,
         1 :: (robust_get_go [429, 503] rest 3 (1 * BACKOFF_FACTOR)).sleeps⟩) ∧
    (¬(200 ≤ r.status ∧ r.status < 300) → r.status ∈ ([429, 503, 502, 504] : List Nat) →
      Appstore.robust_get_trace (.response r :: rest) MAX_RETRIES =
        ⟨(robust_get_go [429, 503, 502, 504] rest 3 (1 * BACKOFF_FACTOR)).result,
         (robust_get_go [429, 503, 502, 504] rest 3 (1 * BACKOFF_FACTOR)).attempts + 1,
         1 :: (robust_get_go [429, 503, 502, 504] rest 3 (1 * BACKOFF_FACTOR)).sleeps⟩) ∧
    (¬(200 ≤ r.status ∧ r.status < 300) → r.status ∉ ([429, 503] : List Nat) →
      TopChartData.robust_get_trace (.response r :: rest) MAX_RETRIES = ⟨some r, 1, []⟩) ∧
    (¬(200 ≤ r.status ∧ r.status < 300) → r.status ∉ ([429, 503, 502, 504] : List Nat) →
      Appstore.robust_get_trace (.response r :: rest) MAX_RETRIES = ⟨some r, 1, []⟩) := by
  have h4 : MAX_RETRIES = 3 + 1 := rfl
  refine ⟨fun h => ⟨?_, ?_⟩, fun h hm => ?_, fun h hm => ?_, fun h hm => ?_, fun h hm => ?_⟩
  · rw [TopChartData.robust_get_trace, h4, robust_get_go_success _ _ _ _ _ h]
  · rw [Appstore.robust_get_trace, h4, robust_get_go_success _ _ _ _ _ h]
  · rw [TopChartData.robust_get_trace, h4, robust_get_go_response, if_neg h, if_pos hm]
  · rw [Appstore.robust_get_trace, h4, robust_get_go_response, if_neg h, if_pos hm]
  · rw [TopChartData.robust_get_trace, h4, robust_get_go_nonretryable _ _ _ _ _ h hm]
  · rw [Appstore.robust_get_trace, h4, robust_get_go_nonretryable _ _ _ _ _ h hm]

/-- Witness for the amended C1 theorem: a 204 returns at once; a 429 takes the
retry path in `TopChart_Data.py`; a 502 takes the retry path in `appstore.py`
but returns at once in `TopChart_Data.py`; a 404 returns at once in
`appstore.py`. -/
theorem C1_amended_status_classification_witness :
    TopChartData.robust_get_trace [.response ⟨204, .malformed⟩] MAX_RETRIES =
      ⟨some ⟨204, .malformed⟩, 1, []⟩ ∧
    TopChartData.robust_get_trace [.response ⟨429, .malformed⟩] MAX_RETRIES =
      ⟨(robust_get_go [429, 503] [] 3 (1 * BACKOFF_FACTOR)).result,
       (robust_get_go [429, 503] [] 3 (1 * BACKOFF_FACTOR)).attempts + 1,
       1 :: (robust_get_go [429, 503] [] 3 (1 * BACKOFF_FACTOR)).sleeps⟩ ∧
    Appstore.robust_get_trace [.response ⟨502, .malformed⟩] MAX_RETRIES =
      ⟨(robust_get_go [429, 503, 502, 504] [] 3 (1 * BACKOFF_FACTOR)).result,
       (robust_get_go [429, 503, 502, 504] [] 3 (1 * BACKOFF_FACTOR)).attempts + 1,
       1 :: (robust_get_go [429, 503, 502, 504] [] 3 (1 * BACKOFF_FACTOR)).sleeps⟩ ∧
    TopChartData.robust_get_trace [.response ⟨502, .malformed⟩] MAX_RETRIES =
      ⟨some ⟨502, .malformed⟩, 1, []⟩ ∧
    Appstore.robust_get_trace [.response ⟨404, .malformed⟩] MAX_RETRIES =
      ⟨some ⟨404, .malformed⟩, 1, []⟩ :=
  ⟨((C1_amended_status_classification ⟨204, .malformed⟩ []).1 (by decide)).1,
   (C1_amended_status_classification ⟨429, .malformed⟩ []).2.1 (by decide) (by decide),
   (C1_amended_status_classification ⟨502, .malformed⟩ []).2.2.1 (by decide) (by decide),
   (C1_amended_status_classification ⟨502, .malformed⟩ []).2.2.2.1 (by decide) (by decide),
   (C1_amended_status_classification ⟨404, .malformed⟩ []).2.2.2.2 (by decide) (by decide)⟩

/-- C7: for every sequence of retryable outcomes (transport errors or
responses with a retryable status), each variant's `robust_get` performs
exactly `min N MAX_RETRIES` attempts (`MAX_RETRIES = 4`), the sleep executed
before attempt `k+1` being `1.0 * 1.8 ^ (k-1)` (pure exponential back-off from
initial delay `1.0` with factor `BACKOFF_FACTOR = 1.8`, its index in the sleep
list being `k-1`), and after exhausting the retries it returns `none` (a
failure value, not an exception — the model is a total function). -/
theorem C7_retry_exhaustion_schedule (outcomes : List Outcome) :
    ((∀ o ∈ outcomes, outcome_retries [429, 503] o = true) →
      TopChartData.robust_get_trace outcomes MAX_RETRIES =
        ⟨none, min outcomes.length MAX_RETRIES,
          (List.range (min outcomes.length MAX_RETRIES)).map
            fun k => 1 * BACKOFF_FACTOR ^ k⟩) ∧
    ((∀ o ∈ outcomes, outcome_retries [429, 503, 502, 504] o = true) →
      Appstore.robust_get_trace outcomes MAX_RETRIES =
        ⟨none, min outcomes.length MAX_RETRIES,
          (List.range (min outcomes.length MAX_RETRIES)).map
            fun k => 1 * BACKOFF_FACTOR ^ k⟩) :=
  ⟨fun h => robust_get_go_all_retry [429, 503] outcomes h MAX_RETRIES 1,
   fun h => robust_get_go_all_retry [429, 503, 502, 504] outcomes h MAX_RETRIES 1⟩

/-- Witness for the C7 theorem at five consecutive transport errors: four
attempts are made (the ceiling), the sleeps are `1, 1.8, 1.8², 1.8³`, and the
result is the failure value `none`. -/
theorem C7_retry_exhaustion_schedule_witness :
    TopChartData.robust_get_trace (List.replicate 5 .transportError) MAX_RETRIES =
      ⟨none, min (List.replicate 5 Outcome.transportError).length MAX_RETRIES,
        (List.range (min (List.replicate 5 Outcome.transportError).length MAX_RETRIES)).map
          fun k => 1 * BACKOFF_FACTOR ^ k⟩ ∧
    Appstore.robust_get_trace (List.replicate 5 .transportError) MAX_RETRIES =
      ⟨none, min (List.replicate 5 Outcome.transportError).length MAX_RETRIES,
        (List.range (min (List.replicate 5 Outcome.transportError).length MAX_RETRIES)).map
          fun k => 1 * BACKOFF_FACTOR ^ k⟩ :=
  ⟨(C7_retry_exhaustion_schedule (List.replicate 5 .transportError)).1 (by decide),
   (C7_retry_exhaustion_schedule (List.replicate 5 .transportError)).2 (by decide)⟩

/-- C10: every caller of the fetch layer checks `r.status_code != 200`, so a
successful response whose 2xx status differs from 200 (e.g. 201 or 204) —
which `robust_get` returns as a success after one attempt — yields an empty
entry list from the chart sources and `Absent` from the detail lookups. -/
theorem C10_non200_success_is_no_data (r : Response) (rest : List Outcome) (limit : Nat)
    (h200 : 200 ≤ r.status) (h300 : r.status < 300) (hne : r.status ≠ 200) :
    TopChartData.fetch_top_apps_by_genre (.response r :: rest) = [] ∧
    TopChartData.fetch_country_topfree (.response r :: rest) = [] ∧
    TopChartData.lookup_app_details (.response r :: rest) = none ∧
    Appstore.lookup_app_details_itunes (.response r :: rest) = none ∧
    Appstore.scrape_charts_page_for_genre (.response r :: rest) limit = [] := by
  have h4 : MAX_RETRIES = 3 + 1 := rfl
  have hT : TopChartData.robust_get (.response r :: rest) MAX_RETRIES = some r := by
    rw [TopChartData.robust_get, TopChartData.robust_get_trace, h4,
      robust_get_go_success _ _ _ _ _ ⟨h200, h300⟩]
  have hA : Appstore.robust_get (.response r :: rest) MAX_RETRIES = some r := by
    rw [Appstore.robust_get, Appstore.robust_get_trace, h4,
      robust_get_go_success _ _ _ _ _ ⟨h200, h300⟩]
  refine ⟨?_, ?_, ?_, ?_, ?_⟩
  · rw [TopChartData.fetch_top_apps_by_genre, hT]; simp [hne]
  · rw [TopChartData.fetch_country_topfree, hT]; simp [hne]
  · rw [TopChartData.lookup_app_details, hT]; simp [hne]
  · rw [Appstore.lookup_app_details_itunes, hA]; simp [hne]
  · rw [Appstore.scrape_charts_page_for_genre, hA]; simp [hne]

/-- Witness for the C10 theorem at a 201 response carrying a well-formed
lookup payload: every chart-source and lookup function still reports no data. -/
theorem C10_non200_success_is_no_data_witness :
    TopChartData.fetch_top_apps_by_genre
      [.response ⟨201, .lookupResults [⟨some "N", none, none, none, none, none, none, none,
        none, none, false⟩]⟩] = [] ∧
    TopChartData.fetch_country_topfree
      [.response ⟨201, .lookupResults [⟨some "N", none, none, none, none, none, none, none,
        none, none, false⟩]⟩] = [] ∧
    TopChartData.lookup_app_details
      [.response ⟨201, .lookupResults [⟨some "N", none, none, none, none, none, none, none,
        none, none, false⟩]⟩] = none ∧
    Appstore.lookup_app_details_itunes
      [.response ⟨201, .lookupResults [⟨some "N", none, none, none, none, none, none, none,
        none, none, false⟩]⟩] = none ∧
    Appstore.scrape_charts_page_for_genre
      [.response ⟨201, .lookupResults [⟨some "N", none, none, none, none, none, none, none,
        none, none, false⟩]⟩] 50 = [] :=
  C10_non200_success_is_no_data
    ⟨201, .lookupResults [⟨some "N", none, none, none, none, none, none, none, none, none,
      false⟩]⟩
    [] 50 (by decide) (by decide) (by decide)

/-- C2: the resolver evaluated on the three inputs of the claim, in both
variants.  `"Food & Drink"` and `"food"` resolve to 6023 (the canonical
`"food & drink"` table entry), but `"food and drink"` resolves to nothing:
the code rewrites `"&"` to `"and"` in the *input* while every table key keeps
`"&"` (so the rewrite step can never produce a key hit), and no table name is
a substring of `"food and drink"` nor conversely.  This contradicts the
spec's explicit testable property, i.e. the code, not the claim, is wrong. -/
theorem C2_resolver_evaluation :
    TopChartData.find_genre_id "Food & Drink" = some 6023 ∧
    TopChartData.find_genre_id "food" = some 6023 ∧
    genre_lookup "food & drink" = some 6023 ∧
    TopChartData.find_genre_id "food and drink" = none ∧
    Appstore.resolve_gid "Food & Drink" = some 6023 ∧
    Appstore.resolve_gid "food" = some 6023 ∧
    Appstore.resolve_gid "food and drink" = none := by
  refine ⟨by decide, by decide, by decide, by decide, by decide, by decide, by decide⟩

/-- C5: when the genre feed returns at least one entry, the source-selection
code of `run` in `TopChart_Data.py` never calls the country-top-free source
(flag `false`), and the selected entries are exactly the genre feed's list —
no merging across strategies. -/
theorem C5_chain_short_circuit (env : TopChartData.Env) (g : Nat)
    (h : TopChartData.fetch_top_apps_by_genre (env.genreFeed g) ≠ []) :
    TopChartData.select_entries env (some g) =
      (TopChartData.fetch_top_apps_by_genre (env.genreFeed g), false) := by
  simp [TopChartData.select_entries, h]

/-- Witness for the C5 theorem at a network serving one genre-feed entry. -/
theorem C5_chain_short_circuit_witness :
    TopChartData.select_entries
        ⟨fun _ => [.response ⟨200, .genreFeedResults [⟨some "1", some "A"⟩]⟩], [],
          fun _ => []⟩ (some 6023) =
      (TopChartData.fetch_top_apps_by_genre
        ((⟨fun _ => [.response ⟨200, .genreFeedResults [⟨some "1", some "A"⟩]⟩], [],
          fun _ => []⟩ : TopChartData.Env).genreFeed 6023), false) :=
  C5_chain_short_circuit _ 6023 (by decide)

/-- C3: the claim as stated fails on `TopChart_Data.py`: when every attempted
source returns empty, `save_rows_csv` is still called, so an output artifact
(with a header row and zero data rows) *is* written for the category. -/
theorem C3_counterexample :
    TopChartData.run ⟨fun _ => [], [], fun _ => []⟩ ["weather"] =
      [⟨"topchart_a_weather.csv", []⟩] ∧
    TopChartData.run ⟨fun _ => [], [], fun _ => []⟩ ["weather"] ≠ [] :=
  ⟨by decide, by decide⟩

/-- C3 (amended): when every attempted chart source returns an empty entry
list for a category, the pipeline produces zero output rows and the driver
proceeds to the next category without raising (the model is a total
function); the `appstore.py` variant writes no artifact for the category,
while the `TopChart_Data.py` variant still writes one artifact with zero data
rows. -/
theorem C3_amended_empty_sources (envA : TopChartData.Env) (envB : Appstore.Env)
    (cat country : String) (cats catsB : List String) (limit : Nat)
    (hA1 : ∀ g, TopChartData.fetch_top_apps_by_genre (envA.genreFeed g) = [])
    (hA2 : TopChartData.fetch_country_topfree envA.countryTopFree = [])
    (hB : ∀ g, Appstore.scrape_charts_page_for_genre (envB.charts g) limit = []) :
    (TopChartData.run_category envA cat).rows = [] ∧
    TopChartData.run envA (cat :: cats) =
      TopChartData.run_category envA cat :: TopChartData.run envA cats ∧
    Appstore.run_category envB country limit cat = none ∧
    Appstore.run envB country limit (cat :: catsB) = Appstore.run envB country limit catsB := by
  have hsel : ∀ gid, (TopChartData.select_entries envA gid).1 = [] := by
    intro gid
    cases gid with
    | none => simp [TopChartData.select_entries, hA2]
    | some g => simp [TopChartData.select_entries, hA1 g, hA2]
  have hnone : Appstore.run_category envB country limit cat = none := by
    rw [Appstore.run_category]
    cases hg : Appstore.resolve_gid cat with
    | none => rfl
    | some gid => simp [hB gid]
  refine ⟨?_, rfl, hnone, ?_⟩
  · rw [TopChartData.run_category]
    rw [hsel (TopChartData.find_genre_id cat)]
    rfl
  · rw [Appstore.run, Appstore.run, List.filterMap_cons, hnone]

/-- Witness for the amended C3 theorem at the all-failing network (every
request's outcome list is empty) and categories `"weather"`, `"music"`. -/
theorem C3_amended_empty_sources_witness :
    (TopChartData.run_category ⟨fun _ => [], [], fun _ => []⟩ "weather").rows = [] ∧
    TopChartData.run ⟨fun _ => [], [], fun _ => []⟩ ["weather", "music"] =
      TopChartData.run_category ⟨fun _ => [], [], fun _ => []⟩ "weather" ::
        TopChartData.run ⟨fun _ => [], [], fun _ => []⟩ ["music"] ∧
    Appstore.run_category ⟨fun _ => [], fun _ => []⟩ "bt" 50 "weather" = none ∧
    Appstore.run ⟨fun _ => [], fun _ => []⟩ "bt" 50 ["weather", "music"] =
      Appstore.run ⟨fun _ => [], fun _ => []⟩ "bt" 50 ["music"] :=
  C3_amended_empty_sources ⟨fun _ => [], [], fun _ => []⟩ ⟨fun _ => [], fun _ => []⟩
    "weather" "bt" ["music"] ["music"] 50 (fun _ => rfl) rfl (fun _ => rfl)

/-- C4: the claim as stated fails on the code: the merge is per-record, not
per-field.  For an entry carrying `name = "X"` and a truthy (non-empty)
detail record that lacks `trackName` — here `{"price": "0.0"}` — the
assembled `app_name` is null: the entry's own name is not used as a
per-field fallback. -/
theorem C4_counterexample :
    (TopChartData.make_row "Weather" (some 6001) 1 ⟨some "123", some "X"⟩
        (some ⟨none, none, none, some "0.0", none, none, none, none, none, none,
          false⟩)).app_name = none ∧
    (⟨some "123", some "X"⟩ : ChartEntry).name = some "X" :=
  ⟨rfl, rfl⟩

/-- C4 (amended): row assembly falls back to the entry's fields exactly when
the detail record is Python-falsy — absent (`None`) or the empty dict `{}` —
and then per-record: `app_name` is the entry's own `name`, `app_id` the
entry's id (via Python `str`), and every detail-only field (developer, url,
price, rating, rating count, genre name, description, dates) is null — in
particular the claim's round-trip instance holds; but when a truthy
(non-empty) detail record is present, every detail field takes that record's
(possibly missing, hence null) value, with no per-field fallback to the
entry. -/
theorem C4_amended_merge_policy (cat : String) (gid : Option Nat) (idx : Nat)
    (e : ChartEntry) (d : AppDetail) :
    ((TopChartData.make_row cat gid idx e none).app_name = e.name ∧
     (TopChartData.make_row cat gid idx e none).app_id = str_of_opt e.id ∧
     (TopChartData.make_row cat gid idx e none).developer = none ∧
     (TopChartData.make_row cat gid idx e none).url = none ∧
     (TopChartData.make_row cat gid idx e none).price = none ∧
     (TopChartData.make_row cat gid idx e none).averageUserRating = none ∧
     (TopChartData.make_row cat gid idx e none).userRatingCount = none ∧
     (TopChartData.make_row cat gid idx e none).primaryGenreName = none ∧
     (TopChartData.make_row cat gid idx e none).description = none ∧
     (TopChartData.make_row cat gid idx e none).launch_date = none ∧
     (TopChartData.make_row cat gid idx e none).update_date = none) ∧
    (d.truthy = false →
     (TopChartData.make_row cat gid idx e (some d)).app_name = e.name ∧
     (TopChartData.make_row cat gid idx e (some d)).app_id = str_of_opt e.id ∧
     (TopChartData.make_row cat gid idx e (some d)).developer = none ∧
     (TopChartData.make_row cat gid idx e (some d)).url = none ∧
     (TopChartData.make_row cat gid idx e (some d)).price = none ∧
     (TopChartData.make_row cat gid idx e (some d)).averageUserRating = none ∧
     (TopChartData.make_row cat gid idx e (some d)).userRatingCount = none ∧
     (TopChartData.make_row cat gid idx e (some d)).primaryGenreName = none ∧
     (TopChartData.make_row cat gid idx e (some d)).description = none ∧
     (TopChartData.make_row cat gid idx e (some d)).launch_date = none ∧
     (TopChartData.make_row cat gid idx e (some d)).update_date = none) ∧
    (d.truthy = true →
     (TopChartData.make_row cat gid idx e (some d)).app_name = d.trackName ∧
     (TopChartData.make_row cat gid idx e (some d)).developer = d.sellerName ∧
     (TopChartData.make_row cat gid idx e (some d)).url = d.trackViewUrl ∧
     (TopChartData.make_row cat gid idx e (some d)).price = d.price ∧
     (TopChartData.make_row cat gid idx e (some d)).averageUserRating = d.averageUserRating ∧
     (TopChartData.make_row cat gid idx e (some d)).userRatingCount = d.userRatingCount ∧
     (TopChartData.make_row cat gid idx e (some d)).primaryGenreName = d.primaryGenreName ∧
     (TopChartData.make_row cat gid idx e (some d)).description = d.description ∧
     (TopChartData.make_row cat gid idx e (some d)).launch_date = d.releaseDate ∧
     (TopChartData.make_row cat gid idx e (some d)).update_date = d.currentVersionReleaseDate) := by
  refine ⟨⟨rfl, rfl, rfl, rfl, rfl, rfl, rfl, rfl, rfl, rfl, rfl⟩, fun h => ?_, fun h => ?_⟩
  · simp [TopChartData.make_row, h]
  · simp [TopChartData.make_row, h]

/-- Witness for the amended C4 theorem: an empty detail dict (falsy) falls
back to the entry's name, while a truthy one-key detail dict supplies its
(here present) `trackName`. -/
theorem C4_amended_merge_policy_witness :
    (TopChartData.make_row "Weather" (some 6001) 1 ⟨some "123", some "X"⟩
        (some ⟨none, none, none, none, none, none, none, none, none, none,
          false⟩)).app_name = (⟨some "123", some "X"⟩ : ChartEntry).name ∧
    (TopChartData.make_row "Weather" (some 6001) 1 ⟨some "123", some "X"⟩
        (some ⟨some "N", none, none, none, none, none, none, none, none, none,
          false⟩)).app_name =
      (⟨some "N", none, none, none, none, none, none, none, none, none,
        false⟩ : AppDetail).trackName :=
  ⟨((C4_amended_merge_policy "Weather" (some 6001) 1 ⟨some "123", some "X"⟩
      ⟨none, none, none, none, none, none, none, none, none, none, false⟩).2.1
      (by decide)).1,
   ((C4_amended_merge_policy "Weather" (some 6001) 1 ⟨some "123", some "X"⟩
      ⟨some "N", none, none, none, none, none, none, none, none, none, false⟩).2.2
      (by decide)).1⟩

theorem assemble_rows_map_rank (env : TopChartData.Env) (cat : String) (gid : Option Nat)
    (entries : List ChartEntry) :
    ∀ idx : Nat,
      (TopChartData.assemble_rows env cat gid idx entries).map TopChartData.Row.rank =
        List.range' idx entries.length := by
  induction entries with
  | nil => intro idx; rfl
  | cons e rest ih =>
      intro idx
      rw [TopChartData.assemble_rows, List.map_cons, ih (idx + 1), List.length_cons,
        List.range'_succ]
      rfl

theorem assemble_rows_map_app_id (env : TopChartData.Env) (cat : String) (gid : Option Nat)
    (entries : List ChartEntry) :
    ∀ idx : Nat,
      (TopChartData.assemble_rows env cat gid idx entries).map TopChartData.Row.app_id =
        entries.map fun e => str_of_opt e.id := by
  induction entries with
  | nil => intro idx; rfl
  | cons e rest ih =>
      intro idx
      rw [TopChartData.assemble_rows, List.map_cons, ih (idx + 1), List.map_cons]
      rfl

theorem appstore_assemble_rows_map_rank (env : Appstore.Env)
    (country cname cat : String) (gid : Nat) (app_ids : List String) :
    ∀ idx : Nat,
      (Appstore.assemble_rows env country cname cat gid idx app_ids).map Appstore.Row.rank =
        List.range' idx app_ids.length := by
  induction app_ids with
  | nil => intro idx; rfl
  | cons a rest ih =>
      intro idx
      rw [Appstore.assemble_rows, List.map_cons, ih (idx + 1), List.length_cons,
        List.range'_succ]
      rfl

theorem appstore_assemble_rows_map_app_id (env : Appstore.Env)
    (country cname cat : String) (gid : Nat) (app_ids : List String) :
    ∀ idx : Nat,
      (Appstore.assemble_rows env country cname cat gid idx app_ids).map Appstore.Row.app_id =
        app_ids := by
  induction app_ids with
  | nil => intro idx; rfl
  | cons a rest ih =>
      intro idx
      rw [Appstore.assemble_rows, List.map_cons, ih (idx + 1)]
      rfl

/-- C6: the uniqueness half of the claim fails on `TopChart_Data.py`: the
pipeline performs no deduplication, so a winning genre-feed list containing
the same `app_id` twice yields two output rows with that `app_id` in one
category's output. -/
theorem C6_counterexample :
    ¬ ((TopChartData.run_category
          ⟨fun g => if g = 6001 then
              [.response ⟨200, .genreFeedResults
                [⟨some "7", some "A"⟩, ⟨some "7", some "B"⟩]⟩]
            else [], [], fun _ => []⟩ "weather").rows.map TopChartData.Row.app_id).Nodup := by
  decide

/-- C6 (amended): in both variants the assembled rows carry ranks exactly
`1, 2, …, n` in the winning source's returned order (1-based, contiguous, no
gaps, no reordering), and the rows' `app_id` column is exactly the source's
id list in order — the pipeline neither deduplicates nor reorders, so the
rows' `app_id`s are pairwise distinct exactly when the winning source's ids
already are (which the web-scrape source guarantees and the feed sources do
not). -/
theorem C6_amended_rank_assignment (envA : TopChartData.Env) (cat : String)
    (gid : Option Nat) (entries : List ChartEntry) (envB : Appstore.Env)
    (country cname catB : String) (gidB : Nat) (app_ids : List String) :
    (TopChartData.assemble_rows envA cat gid 1 entries).map TopChartData.Row.rank =
      List.range' 1 entries.length ∧
    (TopChartData.assemble_rows envA cat gid 1 entries).map TopChartData.Row.app_id =
      entries.map (fun e => str_of_opt e.id) ∧
    ((entries.map fun e => str_of_opt e.id).Nodup →
      ((TopChartData.assemble_rows envA cat gid 1 entries).map TopChartData.Row.app_id).Nodup) ∧
    (Appstore.assemble_rows envB country cname catB gidB 1 app_ids).map Appstore.Row.rank =
      List.range' 1 app_ids.length ∧
    ((Appstore.assemble_rows envB country cname catB gidB 1 app_ids).map Appstore.Row.app_id =
      app_ids) :=
  ⟨assemble_rows_map_rank envA cat gid entries 1,
   assemble_rows_map_app_id envA cat gid entries 1,
   fun h => (assemble_rows_map_app_id envA cat gid entries 1).symm ▸ h,
   appstore_assemble_rows_map_rank envB country cname catB gidB app_ids 1,
   appstore_assemble_rows_map_app_id envB country cname catB gidB app_ids 1⟩

/-- Witness for the amended C6 theorem at a three-entry source list with
pairwise-distinct ids: the rows' `app_id` column is then duplicate-free. -/
theorem C6_amended_rank_assignment_witness :
    ((TopChartData.assemble_rows ⟨fun _ => [], [], fun _ => []⟩ "weather" (some 6001) 1
        [⟨some "1", some "a"⟩, ⟨some "2", some "b"⟩, ⟨some "3", some "c"⟩]).map
      TopChartData.Row.app_id).Nodup :=
  (C6_amended_rank_assignment ⟨fun _ => [], [], fun _ => []⟩ "weather" (some 6001)
    [⟨some "1", some "a"⟩, ⟨some "2", some "b"⟩, ⟨some "3", some "c"⟩]
    ⟨fun _ => [], fun _ => []⟩ "bt" "Bhutan" "weather" 6001 ["1", "2", "3"]).2.2.1 (by decide)

/-- Reference description of "identifiers in order of first appearance,
deduplicated": keep each element not in `seen` at its first occurrence,
threading the seen-set. -/
def dedup_keep_first (seen : List String) : List String → List String
  | [] => []
  | x :: xs =>
      if seen.contains x then dedup_keep_first seen xs
      else x :: dedup_keep_first (x :: seen) xs

theorem dedup_keep_first_congr (l : List String) :
    ∀ s₁ s₂ : List String, (∀ x, s₁.contains x = s₂.contains x) →
      dedup_keep_first s₁ l = dedup_keep_first s₂ l := by
  induction l with
  | nil => intro s₁ s₂ h; rfl
  | cons x xs ih =>
      intro s₁ s₂ h
      rw [dedup_keep_first, dedup_keep_first, h x]
      by_cases hx : s₂.contains x = true
      · rw [if_pos hx, if_pos hx]
        exact ih s₁ s₂ h
      · rw [if_neg hx, if_neg hx]
        refine congrArg (List.cons x) (ih (x :: s₁) (x :: s₂) fun y => ?_)
        rw [List.contains_cons, List.contains_cons, h y]

theorem contains_append_singleton (ids : List String) (a x : String) :
    (ids ++ [a]).contains x = (a :: ids).contains x := by
  simp [List.contains_cons, Bool.or_comm]

theorem scrape_loop_eq (limit : Nat) (hrefs : List String) :
    ∀ ids : List String, ids.length < limit →
      Appstore.scrape_loop limit hrefs ids =
        ids ++ (dedup_keep_first ids (hrefs.filterMap Appstore.extract_app_id)).take
          (limit - ids.length) := by
  induction hrefs with
  | nil => intro ids h; simp [Appstore.scrape_loop, dedup_keep_first]
  | cons href rest ih =>
      intro ids h
      cases hx : Appstore.extract_app_id href with
      | none =>
          rw [List.filterMap_cons_none hx]
          simp only [Appstore.scrape_loop, hx]
          exact ih ids h
      | some a =>
          rw [List.filterMap_cons_some hx]
          simp only [Appstore.scrape_loop, hx]
          rw [dedup_keep_first]
          by_cases hc : ids.contains a = true
          · rw [if_pos hc, if_pos hc]
            exact ih ids h
          · rw [if_neg hc, if_neg hc]
            by_cases hl : limit ≤ (ids ++ [a]).length
            · rw [if_pos hl]
              have hlim : limit - ids.length = 1 := by
                simp only [List.length_append, List.length_cons, List.length_nil] at hl ⊢
                omega
              rw [hlim, List.take_succ_cons, List.take_zero]
            · rw [if_neg hl]
              have h2 : (ids ++ [a]).length < limit := by omega
              rw [ih (ids ++ [a]) h2,
                dedup_keep_first_congr _ (ids ++ [a]) (a :: ids)
                  (contains_append_singleton ids a)]
              have hk : limit - ids.length = (limit - (ids ++ [a]).length) + 1 := by
                simp only [List.length_append, List.length_cons, List.length_nil]
                omega
              rw [hk, List.take_succ_cons, List.append_assoc]
              rfl

theorem scrape_loop_nodup (limit : Nat) (hrefs : List String) :
    ∀ ids : List String, ids.Nodup → (Appstore.scrape_loop limit hrefs ids).Nodup := by
  induction hrefs with
  | nil => intro ids h; exact h
  | cons href rest ih =>
      intro ids h
      cases hx : Appstore.extract_app_id href with
      | none =>
          simp only [Appstore.scrape_loop, hx]
          exact ih ids h
      | some a =>
          simp only [Appstore.scrape_loop, hx]
          by_cases hc : ids.contains a = true
          · rw [if_pos hc]
            exact ih ids h
          · rw [if_neg hc]
            have hni : a ∉ ids := by
              simpa using hc
            have h2 : (ids ++ [a]).Nodup := by
              rw [List.nodup_append]
              exact ⟨h, List.nodup_singleton a, List.disjoint_singleton.mpr hni⟩
            by_cases hl : limit ≤ (ids ++ [a]).length
            · rw [if_pos hl]; exact h2
            · rw [if_neg hl]; exact ih (ids ++ [a]) h2

theorem scrape_charts_page_200 (hrefs : List String) (rest : List Outcome) (limit : Nat) :
    Appstore.scrape_charts_page_for_genre (.response ⟨200, .htmlPage hrefs⟩ :: rest) limit =
      Appstore.scrape_loop limit hrefs [] := by
  have h4 : MAX_RETRIES = 3 + 1 := rfl
  rw [Appstore.scrape_charts_page_for_genre, Appstore.robust_get, Appstore.robust_get_trace, h4,
    robust_get_go_success _ _ _ _ _ ⟨Nat.le_refl 200, by norm_num⟩]
  rfl

/-- C8: the length cap of the claim fails at `limit = 0`: the `len(ids) >=
limit` check runs only after an id has been appended, so a document
containing one app link yields a one-element list, exceeding the limit 0. -/
theorem C8_counterexample :
    Appstore.scrape_charts_page_for_genre [.response ⟨200, .htmlPage ["/id123"]⟩] 0 = ["123"] ∧
    ¬ ((Appstore.scrape_charts_page_for_genre
        [.response ⟨200, .htmlPage ["/id123"]⟩] 0).length ≤ 0) :=
  ⟨by decide, by decide⟩

/-- C8 (amended): for every HTML document (anchor href list) served with
status 200, `scrape_charts_page_for_genre` returns app identifiers with no
duplicates, and — for every limit ≥ 1 — the returned list is exactly the
first-appearance-ordered deduplication of the extracted identifiers truncated
to `limit` (hence its length never exceeds `limit`); at limit 0 the cap can
be exceeded by one, because the cap is checked only after each append. -/
theorem C8_amended_scrape_order_dedup_cap (hrefs : List String) (rest : List Outcome)
    (limit : Nat) :
    (Appstore.scrape_charts_page_for_genre
      (.response ⟨200, .htmlPage hrefs⟩ :: rest) limit).Nodup ∧
    (1 ≤ limit →
      Appstore.scrape_charts_page_for_genre (.response ⟨200, .htmlPage hrefs⟩ :: rest) limit =
        (dedup_keep_first [] (hrefs.filterMap Appstore.extract_app_id)).take limit ∧
      (Appstore.scrape_charts_page_for_genre
        (.response ⟨200, .htmlPage hrefs⟩ :: rest) limit).length ≤ limit) := by
  rw [scrape_charts_page_200]
  refine ⟨scrape_loop_nodup limit hrefs [] List.nodup_nil, fun hl => ?_⟩
  have he := scrape_loop_eq limit hrefs [] (by simpa using hl)
  simp only [List.nil_append, Nat.sub_zero] at he
  exact ⟨he, he ▸ List.length_take_le limit _⟩

/-- Witness for the amended C8 theorem on a document with a duplicated and a
malformed link and limit 2. -/
theorem C8_amended_scrape_order_dedup_cap_witness :
    Appstore.scrape_charts_page_for_genre
        [.response ⟨200, .htmlPage ["/id1/", "/idx", "/id1/", "/id2?x", "/id3/"]⟩] 2 =
      (dedup_keep_first []
        ((["/id1/", "/idx", "/id1/", "/id2?x", "/id3/"] : List String).filterMap
          Appstore.extract_app_id)).take 2 ∧
    (Appstore.scrape_charts_page_for_genre
        [.response ⟨200, .htmlPage ["/id1/", "/idx", "/id1/", "/id2?x", "/id3/"]⟩] 2).length ≤ 2 :=
  (C8_amended_scrape_order_dedup_cap ["/id1/", "/idx", "/id1/", "/id2?x", "/id3/"] [] 2).2
    (by decide)

/-- Sanitisation as the spec words it, for comparison with the source's
`safe_name`: every character that is not alphanumeric and not a space, hyphen
or underscore is replaced (by an underscore), then spaces become underscores. -/
def spec_safe_name (category : String) : String :=
  ((category.toList.map fun c =>
      if ¬(c.isAlphanum = true) ∧ ¬(c = ' ' ∨ c = '-' ∨ c = '_') then '_' else c).map
    fun c => if c = ' ' then '_' else c).asString

theorem safe_name_eq_spec (category : String) :
    TopChartData.safe_name category = spec_safe_name category := by
  rw [TopChartData.safe_name, spec_safe_name, List.map_map, List.map_map]
  refine congrArg List.asString (List.map_congr_left fun c _ => ?_)
  simp only [Function.comp_apply]
  by_cases h1 : c.isAlphanum <;>
    by_cases h2 : c = ' ' <;>
      by_cases h3 : c = '_' <;>
        by_cases h4 : c = '-' <;>
          simp [h1, h2, h3, h4]

/-- C9: collision-resistance fails: the distinct labels `"a b"` and `"a_b"`
yield the same artifact name in both variants (a space and an underscore both
end up as an underscore). -/
theorem C9_counterexample :
    ("a b" : String) ≠ "a_b" ∧
    TopChartData.save_filename "a b" = TopChartData.save_filename "a_b" ∧
    Appstore.save_filename "bt" "a b" = Appstore.save_filename "bt" "a_b" :=
  ⟨by decide, by decide, by decide⟩

/-- C9 (amended): the artifact name is derived deterministically from the
category label exactly as the spec describes — every character that is not
alphanumeric and not a space, hyphen, or underscore is replaced by an
underscore, then spaces become underscores — but the derivation is not
injective: distinct labels such as `"a b"` and `"a_b"` yield the same
artifact name. -/
theorem C9_amended_naming (category : String) :
    TopChartData.safe_name category = spec_safe_name category ∧
    TopChartData.save_filename category = "topchart_a_" ++ spec_safe_name category ++ ".csv" ∧
    TopChartData.save_filename "a b" = TopChartData.save_filename "a_b" :=
  ⟨safe_name_eq_spec category,
   by rw [TopChartData.save_filename, safe_name_eq_spec category],
   by decide⟩

end TopChartScraper
